import Mathlib

/-!
Verification of the RiyadahElite backend reward-claim engine and the
authentication controller, as a shallow embedding in Lean 4.

The first part models the reward-claim subsystem of the database module
that defines `claimReward` (src/unnamed/part_000): the users, rewards,
user_rewards and user_activity tables become lists inside a `DB` record,
and each database helper becomes a pure function on `DB`.  Supabase writes
can report an error at runtime; a `FailSpec` record says, for one call,
which of the writes issued by `claimReward` report an error, so that the
behaviour of the code under storage faults is part of the model.

The second part models the authentication controller
(src/backend/controllers/auth.js) over the database helpers of
src/backend/config/database.js.  User rows there are modelled as
association lists from field names to values, which makes the JavaScript
rest-destructuring pattern that strips the password field expressible
exactly as key removal.
-/

namespace Rewards

/-- A row of the `users` table, restricted to the columns `claimReward`
reads or writes. -/
structure User where
  id : Nat
  points : Int
  deriving Repr, DecidableEq

/-- A row of the `rewards` table, restricted to the columns `claimReward`
reads or writes.  The `is_active` flag is present in the schema and in the
model; whether `claimReward` consults it is settled by theorems below. -/
structure Reward where
  id : Nat
  title : String
  points_required : Int
  stock : Int
  is_active : Bool
  deriving Repr, DecidableEq

/-- A row of the `user_rewards` table: the claim record inserted by
`claimReward`. -/
structure ClaimRec where
  user_id : Nat
  reward_id : Nat
  deriving Repr, DecidableEq

/-- A row of the `user_activity` table, as inserted by `logActivity`. -/
structure Activity where
  user_id : Nat
  tournament_id : Option Nat
  reward_id : Option Nat
  activity_type : String
  description : String
  points_change : Int
  deriving Repr, DecidableEq

/-- The database state visible to the reward-claim engine. -/
structure DB where
  users : List User
  rewards : List Reward
  user_rewards : List ClaimRec
  user_activity : List Activity
  deriving Repr, DecidableEq

/-- The distinct failure modes of `claimReward` in src/unnamed/part_000.
`userFetchError` is the raw storage error rethrown by `getUserById` when
its single-row select finds no row (the PGRST116 error object, rethrown
by the unconditional throw-on-error; unlike `getUserByEmail` in the same
file, `getUserById` does not exclude PGRST116, so user absence surfaces
as this raw error, not as a null row).  `userOrRewardNotFound` is the
combined message `User or reward not found` thrown by the null check
after the reads; since `getUserById` throws first on an absent user,
only the reward half of that check is reachable.  `writeFailed` stands
for a supabase write reporting an error, which the code rethrows. -/
inductive ClaimError where
  | userFetchError
  | userOrRewardNotFound
  | insufficientPoints
  | outOfStock
  | writeFailed
  deriving Repr, DecidableEq

/-- `db.getUserById(id)` of src/unnamed/part_000: a single-row select by
id followed by an unconditional throw-on-error.  With zero matching rows
the select reports the PGRST116 error, which this function rethrows — it
never returns null, so absence is observable only as the thrown storage
error. -/
def getUserById (db : DB) (id : Nat) : Except ClaimError User :=
  match db.users.find? (fun u => u.id == id) with
  | some u => Except.ok u
  | none => Except.error ClaimError.userFetchError

/-- The reward read issued by `claimReward`: the supabase select of the
whole rewards row by id.  Note that this query has no `is_active`
filter. -/
def getRewardById (db : DB) (id : Nat) : Option Reward :=
  db.rewards.find? (fun r => r.id == id)

/-- The updateUser call issued by `claimReward` with the new points
value: an unconditional update of the points column of every row matching
the id. -/
def updateUserPoints (db : DB) (id : Nat) (pts : Int) : DB :=
  { db with users := db.users.map (fun u => if u.id == id then { u with points := pts } else u) }

/-- The supabase update of the rewards row issued by `claimReward` with
the new stock value: an unconditional update of the stock column. -/
def updateRewardStock (db : DB) (id : Nat) (s : Int) : DB :=
  { db with rewards := db.rewards.map (fun r => if r.id == id then { r with stock := s } else r) }

/-- The raw insert into `user_activity`; like any supabase write it can
report an error, driven here by the `fail` flag. -/
def appendActivity (fail : Bool) (l : List Activity) (e : Activity) :
    Except String (List Activity) :=
  if fail then Except.error "insert failed" else Except.ok (l ++ [e])

/-- `db.logActivity(...)` of src/unnamed/part_000: the insert is wrapped in
a try/catch and a reported error is only logged to the console, so the
function never propagates a failure to its caller; on failure the table is
left unchanged and `null` is returned. -/
def logActivity (fail : Bool) (db : DB) (userId : Nat) (ty desc : String)
    (pts : Int) (tid rid : Option Nat) : DB :=
  match appendActivity fail db.user_activity ⟨userId, tid, rid, ty, desc, pts⟩ with
  | Except.ok l => { db with user_activity := l }
  | Except.error _ => db

/-- Which of the writes issued by one `claimReward` call report a storage
error.  `noFail` below is the fault-free case. -/
structure FailSpec where
  insertClaimErr : Bool
  updateUserErr : Bool
  updateStockErr : Bool
  logErr : Bool
  deriving Repr, DecidableEq

def noFail : FailSpec := ⟨false, false, false, false⟩

/-- The snapshot taken by the read phase of `claimReward`: the user row and
the reward row as they were at the time of the two selects. -/
structure Snapshot where
  user : User
  reward : Reward
  deriving Repr, DecidableEq

/-- The read-and-validate phase of `claimReward`: run the user fetch and
the reward select together (their Promise.all rejects with the error
thrown by `getUserById` when the user is absent, since the reward select
never rejects there — `claimReward` only inspects its data field), then
throw the combined `User or reward not found` when the reward row is
null (the user half of that check is unreachable: an absent user has
already thrown), then check points against `points_required` and stock
against zero, in that order.  No check of `is_active` appears in the
source. -/
def claimRead (db : DB) (userId rewardId : Nat) : Except ClaimError Snapshot :=
  match getUserById db userId, getRewardById db rewardId with
  | Except.error e, _ => Except.error e
  | Except.ok _, none => Except.error ClaimError.userOrRewardNotFound
  | Except.ok u, some r =>
      if u.points < r.points_required then Except.error ClaimError.insufficientPoints
      else if r.stock ≤ 0 then Except.error ClaimError.outOfStock
      else Except.ok ⟨u, r⟩

/-- The write phase of `claimReward`, applied to the current state `db`
using the values of the snapshot `snap`: insert the `user_rewards` record
(rethrowing an insert error), then run the points update and the stock
update together under `Promise.all` — both writes are started, and a
failure of one does not undo the other, it only makes the whole call
throw — and finally call `logActivity`, whose failure is swallowed.
The two updates write absolute values computed from the snapshot; neither
is conditioned on the current stored value. -/
def claimCommit (o : FailSpec) (db : DB) (snap : Snapshot) :
    DB × Except ClaimError ClaimRec :=
  if o.insertClaimErr then (db, Except.error ClaimError.writeFailed)
  else
    let rec1 : ClaimRec := ⟨snap.user.id, snap.reward.id⟩
    let db1 : DB := { db with user_rewards := db.user_rewards ++ [rec1] }
    let db2 : DB :=
      if o.updateUserErr then db1
      else updateUserPoints db1 snap.user.id (snap.user.points - snap.reward.points_required)
    let db3 : DB :=
      if o.updateStockErr then db2
      else updateRewardStock db2 snap.reward.id (snap.reward.stock - 1)
    if o.updateUserErr || o.updateStockErr then (db3, Except.error ClaimError.writeFailed)
    else
      let db4 : DB := logActivity o.logErr db3 snap.user.id "reward_claim"
        ("Claimed " ++ snap.reward.title) (-(snap.reward.points_required)) none (some snap.reward.id)
      (db4, Except.ok rec1)

/-- `db.claimReward(userId, rewardId)` of src/unnamed/part_000: the read
phase followed by the write phase.  The returned pair is the database
state after the call together with the thrown error or the created claim
record. -/
def claimReward (o : FailSpec) (db : DB) (userId rewardId : Nat) :
    DB × Except ClaimError ClaimRec :=
  match claimRead db userId rewardId with
  | Except.error e => (db, Except.error e)
  | Except.ok snap => claimCommit o db snap

/-- A sequence of claim operations applied one after the other, each with
its own fault pattern. -/
def applyClaims (db : DB) (ops : List (FailSpec × Nat × Nat)) : DB :=
  ops.foldl (fun d op => (claimReward op.1 d op.2.1 op.2.2).1) db

/-- The invariant set of the spec: no stored points balance and no stored
stock count is negative. -/
def NonnegDB (db : DB) : Prop :=
  (∀ u ∈ db.users, 0 ≤ u.points) ∧ (∀ r ∈ db.rewards, 0 ≤ r.stock)

instance : DecidablePred NonnegDB := fun db => by
  unfold NonnegDB
  infer_instance

/-! Concrete database states used by witnesses and counterexamples. -/

def alice : User := ⟨1, 600⟩
def bob : User := ⟨2, 600⟩
def poorUser : User := ⟨3, 10⟩
def headset : Reward := ⟨7, "Gaming Headset", 500, 2, true⟩
def lamp : Reward := ⟨8, "Desk Lamp", 500, 1, false⟩
def soldOutMug : Reward := ⟨9, "Mug", 50, 0, true⟩
def headsetLast : Reward := ⟨7, "Gaming Headset", 500, 1, true⟩

def dbMain : DB := ⟨[alice, bob], [headset, lamp], [], []⟩
def dbNoUser : DB := ⟨[], [headset], [], []⟩
def dbNoReward : DB := ⟨[alice], [], [], []⟩
def dbPoor : DB := ⟨[poorUser], [headset], [], []⟩
def dbSoldOut : DB := ⟨[alice], [soldOutMug], [], []⟩
def dbRace : DB := ⟨[alice, bob], [headsetLast], [], []⟩

/-- The fault pattern in which only the points update reports an error. -/
def failPoints : FailSpec := ⟨false, true, false, false⟩

end Rewards

namespace Auth

/-- A JSON-like field value: the user rows handled by the authentication
controller mix string and integer fields. -/
inductive Value where
  | str (s : String)
  | int (n : Int)
  deriving Repr, DecidableEq

/-- A user row as a JavaScript object: an association list from field
names to values. -/
abbrev Row := List (String × Value)

/-- Property access `row[k]`: the first binding of the key, if any. -/
def getField (r : Row) (k : String) : Option Value :=
  (r.find? (fun p => p.1 == k)).map (fun p => p.2)

/-- The rest-destructuring pattern of auth.js that copies a user object
while omitting the password binding, for a general key: every binding of
that key is removed, the rest is kept in order. -/
def omitField (r : Row) (k : String) : Row :=
  r.filter (fun p => p.1 != k)

/-- Object spread semantics for one assignment: replace the binding in
place when the key exists, append it otherwise. -/
def setField (r : Row) (k : String) (v : Value) : Row :=
  if r.any (fun p => p.1 == k) then r.map (fun p => if p.1 == k then (k, v) else p)
  else r ++ [(k, v)]

/-- A row of the `user_activity` table as written by the logActivity of
src/backend/config/database.js. -/
structure ActivityEntry where
  user_id : Value
  tournament_id : Option Value
  reward_id : Option Value
  activity_type : String
  description : String
  points_change : Int
  deriving Repr, DecidableEq

/-- The state the authentication controller sees: the users table, the
activity table, and the id the store will assign to the next inserted
row. -/
structure AuthDB where
  users : List Row
  activity : List ActivityEntry
  nextId : Nat
  deriving Repr, DecidableEq

/-- Executable model of JavaScript `toLowerCase()` on the character data
of a string (the library `String.toLower` is built on non-reducing
auxiliaries and cannot be evaluated inside proofs). -/
def lowerString (s : String) : String := ⟨s.data.map Char.toLower⟩

/-- Executable model of JavaScript `trim()`: drop whitespace at both
ends. -/
def trimString (s : String) : String :=
  ⟨((s.data.dropWhile Char.isWhitespace).reverse.dropWhile Char.isWhitespace).reverse⟩

/-- `db.getUserByEmail(email)` of src/backend/config/database.js. -/
def getUserByEmail (db : AuthDB) (email : String) : Option Row :=
  db.users.find? (fun r => getField r "email" == some (Value.str email))

/-- `db.getUserById(id)` of src/backend/config/database.js. -/
def getUserById (db : AuthDB) (id : Value) : Option Row :=
  db.users.find? (fun r => getField r "id" == some id)

/-- `db.createUser(userData)`: insert the row and return it with the
store-assigned id. -/
def createUser (db : AuthDB) (userData : Row) : AuthDB × Row :=
  let row := ("id", Value.int db.nextId) :: userData
  ({ db with users := db.users ++ [row], nextId := db.nextId + 1 }, row)

/-- `db.logActivity(...)` of src/backend/config/database.js: the insert is
wrapped in try/catch and a reported error is only written to the console,
so a log failure never reaches the caller; on failure nothing is
appended. -/
def logActivity (fail : Bool) (db : AuthDB) (uid : Value) (ty desc : String)
    (pts : Int) (tid rid : Option Value) : AuthDB :=
  if fail then db
  else { db with activity := db.activity ++ [⟨uid, tid, rid, ty, desc, pts⟩] }

/-- An error response of the controller: HTTP status code and the exact
message literal of auth.js. -/
abbrev ApiError := Nat × String

/-- The payload signed into the JWT by auth.js: userId, email, role and
name of the user row. -/
structure TokenPayload where
  userId : Value
  email : Option Value
  role : Option Value
  name : Option Value
  deriving Repr, DecidableEq

/-- A success response of register or login: status code, token payload,
and the user object sent back to the caller. -/
structure AuthSuccess where
  status : Nat
  token : TokenPayload
  user : Row
  deriving Repr, DecidableEq

/-- `authController.register` of src/backend/controllers/auth.js.  The
bcrypt hash is an opaque one-way function passed as `hash`; `logFail`
says whether the activity insert reports a storage error. -/
def register (hash : String → String) (logFail : Bool) (db : AuthDB)
    (username email password : String) : AuthDB × Except ApiError AuthSuccess :=
  if username.isEmpty || email.isEmpty || password.isEmpty then
    (db, Except.error (400, "Username, email, and password are required"))
  else if password.length < 6 then
    (db, Except.error (400, "Password must be at least 6 characters"))
  else
    match getUserByEmail db email with
    | some _ => (db, Except.error (400, "User already exists with this email"))
    | none =>
        let userData : Row :=
          [("name", Value.str (trimString username)),
           ("email", Value.str (trimString (lowerString email))),
           ("password", Value.str (hash password)),
           ("role", Value.str "user"),
           ("points", Value.int 100)]
        let res := createUser db userData
        let user := res.2
        let uid := (getField user "id").getD (Value.int 0)
        let db2 := logActivity logFail res.1 uid "registration" "User registered" 100 none none
        (db2, Except.ok ⟨201,
          ⟨uid, getField user "email", getField user "role", getField user "name"⟩,
          omitField user "password"⟩)

/-- The stored hash handed to `bcrypt.compare`: the password field of the
row, or the empty string when the field is missing or not a string. -/
def passwordHashOf (user : Row) : String :=
  match getField user "password" with
  | some (Value.str s) => s
  | _ => ""

/-- `authController.login` of src/backend/controllers/auth.js.  `verify`
is the opaque `bcrypt.compare`. -/
def login (verify : String → String → Bool) (logFail : Bool) (db : AuthDB)
    (email password : String) : AuthDB × Except ApiError AuthSuccess :=
  if email.isEmpty || password.isEmpty then
    (db, Except.error (400, "Email and password are required"))
  else
    match getUserByEmail db (trimString (lowerString email)) with
    | none => (db, Except.error (401, "Invalid email or password"))
    | some user =>
        if !(verify password (passwordHashOf user)) then
          (db, Except.error (401, "Invalid email or password"))
        else
          let uid := (getField user "id").getD (Value.int 0)
          let db2 := logActivity logFail db uid "login" "User logged in" 0 none none
          (db2, Except.ok ⟨200,
            ⟨uid, getField user "email", getField user "role", getField user "name"⟩,
            omitField user "password"⟩)

/-- `authController.getProfile`: fetch the row of the authenticated user
and answer it without the password field. -/
def getProfile (db : AuthDB) (userId : Value) : Except ApiError Row :=
  match getUserById db userId with
  | none => Except.error (404, "User not found")
  | some user => Except.ok (omitField user "password")

/-- `db.updateUser(id, updates)`: rewrite the matching row with the
updated fields and return it; a store error for a missing row surfaces
through the controller catch-all as the 500 response. -/
def updateUser (db : AuthDB) (id : Value) (updates : Row) :
    AuthDB × Except ApiError Row :=
  match getUserById db id with
  | none => (db, Except.error (500, "Failed to update profile"))
  | some user =>
      let updated := updates.foldl (fun acc p => setField acc p.1 p.2) user
      ({ db with users := db.users.map (fun r => if getField r "id" == some id then updated else r) },
       Except.ok updated)

/-- The updates object built by `authController.updateProfile`:
`if (name) updates.name = name.trim(); if (avatar) updates.avatar = avatar`. -/
def profileUpdates (name avatar : Option String) : Row :=
  (match name with
   | some n => [("name", Value.str (trimString n))]
   | none => []) ++
  (match avatar with
   | some a => [("avatar", Value.str a)]
   | none => [])

/-- `authController.updateProfile`: build the updates object from the
optional name and avatar, update the row, log, and answer the updated
row without the password field. -/
def updateProfile (logFail : Bool) (db : AuthDB) (userId : Value)
    (name avatar : Option String) : AuthDB × Except ApiError Row :=
  match updateUser db userId (profileUpdates name avatar) with
  | (db1, Except.ok updated) =>
      let db2 := logActivity logFail db1 userId "profile_update" "Profile updated" 0 none none
      (db2, Except.ok (omitField updated "password"))
  | (db1, Except.error e) => (db1, Except.error e)

/-! Concrete data for witnesses. -/

/-- A stand-in one-way hash for concrete runs. -/
def tagHash : String → String := fun s => String.append "h:" s

/-- The matching stand-in for `bcrypt.compare`. -/
def tagVerify : String → String → Bool := fun p h => String.append "h:" p == h

def authDb0 : AuthDB := ⟨[], [], 5⟩

def aliceRow : Row :=
  [("id", Value.int 5), ("name", Value.str "alice"),
   ("email", Value.str "alice@example.com"),
   ("password", Value.str "h:secret1"), ("role", Value.str "user"),
   ("points", Value.int 100)]

def authDb1 : AuthDB := ⟨[aliceRow], [], 6⟩

end Auth

namespace Rewards

/-! Helper lemmas. -/

/-- `find?` commutes with a map that does not change the tested key. -/
theorem find?_map_key {α : Type} (f : α → α) (p : α → Bool)
    (hf : ∀ a, p (f a) = p a) :
    ∀ l : List α, (l.map f).find? p = (l.find? p).map f := by
  intro l
  induction l with
  | nil => rfl
  | cons a t ih =>
      cases hpa : p a with
      | true => simp [List.find?, hf, hpa]
      | false => simp [List.find?, hf, hpa, ih]

/-- The user fetch returns a row exactly when the table lookup finds
one. -/
theorem getUserById_ok_iff (db : DB) (uid : Nat) (u : User) :
    getUserById db uid = Except.ok u ↔
      db.users.find? (fun x => x.id == uid) = some u := by
  unfold getUserById
  cases h : db.users.find? (fun x => x.id == uid) <;> simp

/-- The user fetch fails exactly when the table lookup finds nothing, and
then with the rethrown storage error. -/
theorem getUserById_error_iff (db : DB) (uid : Nat) :
    getUserById db uid = Except.error ClaimError.userFetchError ↔
      db.users.find? (fun x => x.id == uid) = none := by
  unfold getUserById
  cases h : db.users.find? (fun x => x.id == uid) <;> simp

/-- A fetched user row carries the requested id. -/
theorem getUserById_id (db : DB) (uid : Nat) (u : User)
    (h : getUserById db uid = Except.ok u) : u.id = uid := by
  have h2 := (getUserById_ok_iff db uid u).mp h
  have := List.find?_some h2
  simpa using this

/-- A matching row found by `getRewardById` carries the requested id. -/
theorem getRewardById_id (db : DB) (rid : Nat) (r : Reward)
    (h : getRewardById db rid = some r) : r.id = rid := by
  have := List.find?_some h
  simpa using this

/-- Characterization of a successful read phase: both rows are found, the
balance covers the cost, and stock is positive.  The `is_active` column
plays no role. -/
theorem claimRead_ok_iff (db : DB) (uid rid : Nat) (s : Snapshot) :
    claimRead db uid rid = Except.ok s ↔
      getUserById db uid = Except.ok s.user ∧ getRewardById db rid = some s.reward ∧
      s.reward.points_required ≤ s.user.points ∧ 0 < s.reward.stock := by
  obtain ⟨su, sr⟩ := s
  unfold claimRead
  cases hu : getUserById db uid with
  | error e => cases hr : getRewardById db rid <;> simp
  | ok u =>
      cases hr : getRewardById db rid with
      | none => simp
      | some r =>
          simp only [hu, hr]
          by_cases h1 : u.points < r.points_required
          · simp only [if_pos h1]
            constructor
            · intro h
              exact absurd h (by simp)
            · rintro ⟨h2, h3, h4, h5⟩
              injection h2 with h2
              injection h3 with h3
              subst h2; subst h3
              omega
          · by_cases h2 : r.stock ≤ 0
            · simp only [if_neg h1, if_pos h2]
              constructor
              · intro h
                exact absurd h (by simp)
              · rintro ⟨h3, h4, h5, h6⟩
                injection h4 with h4
                subst h4
                omega
            · simp only [if_neg h1, if_neg h2]
              constructor
              · intro h
                injection h with h
                injection h with h3 h4
                subst h3; subst h4
                exact ⟨rfl, rfl, by omega, by omega⟩
              · rintro ⟨h3, h4, h5, h6⟩
                injection h3 with h3
                injection h4 with h4
                subst h3; subst h4
                rfl

/-- The fault-free write phase, fully evaluated: claim inserted, points
and stock written to the snapshot values minus cost and one, a single
`reward_claim` activity appended, the claim record returned. -/
theorem claimCommit_noFail (db : DB) (u : User) (r : Reward) :
    claimCommit noFail db ⟨u, r⟩ =
      (⟨db.users.map (fun x =>
          if x.id == u.id then { x with points := u.points - r.points_required } else x),
        db.rewards.map (fun x =>
          if x.id == r.id then { x with stock := r.stock - 1 } else x),
        db.user_rewards ++ [⟨u.id, r.id⟩],
        db.user_activity ++ [⟨u.id, none, some r.id, "reward_claim",
          "Claimed " ++ r.title, -r.points_required⟩]⟩,
       Except.ok ⟨u.id, r.id⟩) := rfl

/-- Whatever the fault pattern, the write phase leaves the users table
unchanged or rewrites it with the points update of the snapshot. -/
theorem claimCommit_users (o : FailSpec) (db : DB) (u : User) (r : Reward) :
    (claimCommit o db ⟨u, r⟩).1.users = db.users ∨
    (claimCommit o db ⟨u, r⟩).1.users = db.users.map (fun x =>
      if x.id == u.id then { x with points := u.points - r.points_required } else x) := by
  obtain ⟨i, uu, ss, ll⟩ := o
  cases i <;> cases uu <;> cases ss <;> cases ll <;>
    simp [claimCommit, updateUserPoints, updateRewardStock, logActivity, appendActivity]

/-- Whatever the fault pattern, the write phase leaves the rewards table
unchanged or rewrites it with the stock update of the snapshot. -/
theorem claimCommit_rewards (o : FailSpec) (db : DB) (u : User) (r : Reward) :
    (claimCommit o db ⟨u, r⟩).1.rewards = db.rewards ∨
    (claimCommit o db ⟨u, r⟩).1.rewards = db.rewards.map (fun x =>
      if x.id == r.id then { x with stock := r.stock - 1 } else x) := by
  obtain ⟨i, uu, ss, ll⟩ := o
  cases i <;> cases uu <;> cases ss <;> cases ll <;>
    simp [claimCommit, updateUserPoints, updateRewardStock, logActivity, appendActivity]

/-- A points rewrite with a non-negative value keeps every balance
non-negative. -/
theorem nonneg_users_map (l : List User) (i : Nat) (pts : Int)
    (hl : ∀ u ∈ l, 0 ≤ u.points) (hp : 0 ≤ pts) :
    ∀ u ∈ l.map (fun x => if x.id == i then { x with points := pts } else x),
      0 ≤ u.points := by
  intro u hu
  rcases List.mem_map.mp hu with ⟨a, ha, rfl⟩
  by_cases h : (a.id == i) = true
  · simp only [if_pos h]
    exact hp
  · simp only [if_neg h]
    exact hl a ha

/-- A stock rewrite with a non-negative value keeps every stock count
non-negative. -/
theorem nonneg_rewards_map (l : List Reward) (i : Nat) (s : Int)
    (hl : ∀ r ∈ l, 0 ≤ r.stock) (hs : 0 ≤ s) :
    ∀ r ∈ l.map (fun x => if x.id == i then { x with stock := s } else x),
      0 ≤ r.stock := by
  intro r hr
  rcases List.mem_map.mp hr with ⟨a, ha, rfl⟩
  by_cases h : (a.id == i) = true
  · simp only [if_pos h]
    exact hs
  · simp only [if_neg h]
    exact hl a ha

/-- One `claimReward` call, under any fault pattern, preserves the
non-negativity invariants. -/
theorem claimReward_preserves_nonneg (o : FailSpec) (db : DB) (uid rid : Nat)
    (h : NonnegDB db) : NonnegDB (claimReward o db uid rid).1 := by
  unfold claimReward
  cases hread : claimRead db uid rid with
  | error e => exact h
  | ok snap =>
      obtain ⟨u, r⟩ := snap
      obtain ⟨hu, hr, hb, hs⟩ := (claimRead_ok_iff db uid rid ⟨u, r⟩).mp hread
      have hb' : r.points_required ≤ u.points := hb
      have hs' : (0 : Int) < r.stock := hs
      have hbal : (0 : Int) ≤ u.points - r.points_required := by omega
      have hst : (0 : Int) ≤ r.stock - 1 := by omega
      refine ⟨?_, ?_⟩
      · rcases claimCommit_users o db u r with h1 | h1 <;> rw [h1]
        · exact h.1
        · exact nonneg_users_map db.users u.id (u.points - r.points_required) h.1 hbal
      · rcases claimCommit_rewards o db u r with h1 | h1 <;> rw [h1]
        · exact h.2
        · exact nonneg_rewards_map db.rewards r.id (r.stock - 1) h.2 hst
end Rewards

namespace Rewards

/-- C1: every successful `claimReward(userId, rewardId)` call decreases the
points of the user by exactly the points_required of the reward, decreases
the stock of the reward by exactly 1, appends exactly one new `user_rewards`
record linking that user and reward, and appends exactly one new activity
entry of kind `reward_claim` whose points delta is the negated cost and
whose description names the reward. -/
theorem claimReward_success_effects (db db' : DB) (uid rid : Nat) (c : ClaimRec)
    (h : claimReward noFail db uid rid = (db', Except.ok c)) :
    ∃ u r, getUserById db uid = Except.ok u ∧ getRewardById db rid = some r ∧
      c = ⟨uid, rid⟩ ∧
      getUserById db' uid = Except.ok ⟨uid, u.points - r.points_required⟩ ∧
      getRewardById db' rid = some ⟨rid, r.title, r.points_required, r.stock - 1, r.is_active⟩ ∧
      db'.user_rewards = db.user_rewards ++ [⟨uid, rid⟩] ∧
      db'.user_activity = db.user_activity ++
        [⟨uid, none, some rid, "reward_claim", "Claimed " ++ r.title, -r.points_required⟩] := by
  unfold claimReward at h
  cases hread : claimRead db uid rid with
  | error e =>
      rw [hread] at h
      simp at h
  | ok snap =>
      obtain ⟨u, r⟩ := snap
      rw [hread] at h
      have h : claimCommit noFail db ⟨u, r⟩ = (db', Except.ok c) := h
      rw [claimCommit_noFail] at h
      obtain ⟨hu, hr, hbal, hstock⟩ := (claimRead_ok_iff db uid rid ⟨u, r⟩).mp hread
      injection h with hdb hok
      injection hok with hok
      subst hdb
      subst hok
      have hid : u.id = uid := getUserById_id db uid u hu
      have hrid : r.id = rid := getRewardById_id db rid r hr
      subst hid
      subst hrid
      refine ⟨u, r, hu, hr, rfl, ?_, ?_, rfl, rfl⟩
      · have hp : ∀ a : User,
            ((if a.id == u.id then { a with points := u.points - r.points_required } else a).id == u.id)
              = (a.id == u.id) := by
          intro a
          split <;> rfl
        have hfind := (getUserById_ok_iff db u.id u).mp hu
        rw [getUserById_ok_iff]
        show (db.users.map (fun x =>
            if x.id == u.id then { x with points := u.points - r.points_required } else x)).find?
          (fun x => x.id == u.id) = some ⟨u.id, u.points - r.points_required⟩
        rw [find?_map_key _ _ hp, hfind]
        simp
      · have hp : ∀ a : Reward,
            ((if a.id == r.id then { a with stock := r.stock - 1 } else a).id == r.id)
              = (a.id == r.id) := by
          intro a
          split <;> rfl
        unfold getRewardById at hr ⊢
        rw [find?_map_key _ _ hp, hr]
        simp

/-- C1 witness: claiming reward 7 with user 1 in the concrete state
`dbMain` succeeds and shows all four effects. -/
theorem claimReward_success_effects_witness :
    ∃ u r, getUserById dbMain 1 = Except.ok u ∧ getRewardById dbMain 7 = some r ∧
      (⟨1, 7⟩ : ClaimRec) = ⟨1, 7⟩ ∧
      getUserById (claimReward noFail dbMain 1 7).1 1 =
        Except.ok ⟨1, u.points - r.points_required⟩ ∧
      getRewardById (claimReward noFail dbMain 1 7).1 7 =
        some ⟨7, r.title, r.points_required, r.stock - 1, r.is_active⟩ ∧
      (claimReward noFail dbMain 1 7).1.user_rewards = dbMain.user_rewards ++ [⟨1, 7⟩] ∧
      (claimReward noFail dbMain 1 7).1.user_activity = dbMain.user_activity ++
        [⟨1, none, some 7, "reward_claim", "Claimed " ++ r.title, -r.points_required⟩] :=
  claimReward_success_effects dbMain (claimReward noFail dbMain 1 7).1 1 7 ⟨1, 7⟩ rfl

end Rewards

namespace Rewards

/-- C2: the claim that a failed `claimReward` call never leaves a partial
mutation is violated by the code: when the points update reports a storage
error after the claim insert succeeded, the call throws, yet the new
`user_rewards` record stays inserted and the stock has been decremented
while the points are unchanged. -/
theorem claimReward_write_failure_partial_mutation :
    (claimReward failPoints dbMain 1 7).2 = Except.error ClaimError.writeFailed ∧
    (claimReward failPoints dbMain 1 7).1.user_rewards = [⟨1, 7⟩] ∧
    getUserById (claimReward failPoints dbMain 1 7).1 1 = Except.ok ⟨1, 600⟩ ∧
    getRewardById (claimReward failPoints dbMain 1 7).1 7 =
      some ⟨7, "Gaming Headset", 500, 1, true⟩ ∧
    dbMain.user_rewards = [] ∧
    getRewardById dbMain 7 = some ⟨7, "Gaming Headset", 500, 2, true⟩ :=
  ⟨rfl, rfl, rfl, rfl, rfl, rfl⟩

/-- C3 counterexample: in `dbMain` reward 8 is inactive, yet claiming it
succeeds instead of failing with a not-found error, because the reward
query and the checks of `claimReward` never consult `is_active`. -/
theorem claimReward_inactive_reward_claim_succeeds :
    (getRewardById dbMain 8).map Reward.is_active = some false ∧
    (claimReward noFail dbMain 1 8).2 = Except.ok ⟨1, 8⟩ :=
  ⟨rfl, rfl⟩

/-- C3 amended: a fault-free `claimReward` call succeeds exactly when the
user exists, the reward exists, the balance covers the cost, and stock is
positive; the `is_active` flag of the reward is not part of the
condition. -/
theorem claimReward_success_iff (db : DB) (uid rid : Nat) :
    (claimReward noFail db uid rid).2.isOk = true ↔
      ∃ u, getUserById db uid = Except.ok u ∧
        ∃ r, getRewardById db rid = some r ∧
          r.points_required ≤ u.points ∧ 0 < r.stock := by
  cases hread : claimRead db uid rid with
  | error e =>
      have hcall : claimReward noFail db uid rid = (db, Except.error e) := by
        unfold claimReward
        rw [hread]
      rw [hcall]
      constructor
      · intro h
        simp [Except.isOk, Except.toBool] at h
      · rintro ⟨u, hu, r, hr, hbal, hstock⟩
        have h2 := (claimRead_ok_iff db uid rid ⟨u, r⟩).mpr ⟨hu, hr, hbal, hstock⟩
        rw [hread] at h2
        exact absurd h2 (by simp)
  | ok snap =>
      obtain ⟨u, r⟩ := snap
      have hcall : claimReward noFail db uid rid = claimCommit noFail db ⟨u, r⟩ := by
        unfold claimReward
        rw [hread]
      obtain ⟨hu, hr, hbal, hstock⟩ := (claimRead_ok_iff db uid rid ⟨u, r⟩).mp hread
      rw [hcall, claimCommit_noFail]
      simp only [Except.isOk]
      constructor
      · intro _
        exact ⟨u, hu, r, hr, hbal, hstock⟩
      · intro _
        rfl

/-- C4: the commit phase is not compare-and-set and there is no retry: in
the interleaving where two calls against the reward with stock 1 both read
before either writes, both validations pass, both commits succeed, two
claim records are inserted, and the final stock is 0 — two successes, not
one success and one failure. -/
theorem claimReward_race_two_successes :
    claimRead dbRace 1 7 = Except.ok ⟨alice, headsetLast⟩ ∧
    claimRead dbRace 2 7 = Except.ok ⟨bob, headsetLast⟩ ∧
    (claimCommit noFail dbRace ⟨alice, headsetLast⟩).2 = Except.ok ⟨1, 7⟩ ∧
    (claimCommit noFail (claimCommit noFail dbRace ⟨alice, headsetLast⟩).1
      ⟨bob, headsetLast⟩).2 = Except.ok ⟨2, 7⟩ ∧
    (claimCommit noFail (claimCommit noFail dbRace ⟨alice, headsetLast⟩).1
      ⟨bob, headsetLast⟩).1.user_rewards = [⟨1, 7⟩, ⟨2, 7⟩] ∧
    getRewardById (claimCommit noFail (claimCommit noFail dbRace ⟨alice, headsetLast⟩).1
      ⟨bob, headsetLast⟩).1 7 = some ⟨7, "Gaming Headset", 500, 0, true⟩ :=
  ⟨rfl, rfl, rfl, rfl, rfl, rfl⟩

/-- C5: starting from a state where every points balance and every stock
count is non-negative, any sequence of claim operations, successful or
failed, under any fault pattern, keeps both invariants. -/
theorem claim_sequences_preserve_nonneg (db : DB) (h : NonnegDB db)
    (ops : List (FailSpec × Nat × Nat)) : NonnegDB (applyClaims db ops) := by
  induction ops generalizing db with
  | nil => exact h
  | cons op t ih =>
      exact ih ((claimReward op.1 db op.2.1 op.2.2).1)
        (claimReward_preserves_nonneg op.1 db op.2.1 op.2.2 h)

/-- C5 witness: a concrete run of three claims, one of them failing, from
the concrete state `dbMain`. -/
theorem claim_sequences_preserve_nonneg_witness :
    NonnegDB (applyClaims dbMain [(noFail, 1, 7), (noFail, 2, 7), (failPoints, 2, 8)]) :=
  claim_sequences_preserve_nonneg dbMain (by decide)
    [(noFail, 1, 7), (noFail, 2, 7), (failPoints, 2, 8)]

/-- C6 counterexample: neither not-found case carries the structured
entity-specific error the claim names.  An absent user does not yield a
user-specific not-found error at all: the user fetch rethrows the raw
PGRST116 storage error before the combined null check runs.  An absent
reward yields the combined message `User or reward not found`, not a
reward-specific error.  The two error values do differ, so the cases are
distinguishable, but by a raw storage error against a combined message,
not by the claimed pair of not-found errors. -/
theorem claimReward_notfound_error_identities :
    claimReward noFail dbNoUser 1 7 =
      (dbNoUser, Except.error ClaimError.userFetchError) ∧
    claimReward noFail dbNoReward 1 7 =
      (dbNoReward, Except.error ClaimError.userOrRewardNotFound) ∧
    ClaimError.userFetchError ≠ ClaimError.userOrRewardNotFound :=
  ⟨rfl, rfl, by decide⟩

/-- C6 amended: the failure modes are distinct and effectively ordered
user existence, reward existence, balance, stock — but with the error
identities the code has: an absent user makes the user fetch rethrow the
raw PGRST116 storage error (regardless of the reward), an absent reward
(with the user present) yields the combined message
`User or reward not found` (the user half of that check being
unreachable), insufficient balance yields `Insufficient points`, and
non-positive stock yields `Reward out of stock`. -/
theorem claimReward_check_order (o : FailSpec) (db : DB) (uid rid : Nat) :
    (getUserById db uid = Except.error ClaimError.userFetchError →
      claimReward o db uid rid = (db, Except.error ClaimError.userFetchError)) ∧
    (∀ u, getUserById db uid = Except.ok u → getRewardById db rid = none →
      claimReward o db uid rid = (db, Except.error ClaimError.userOrRewardNotFound)) ∧
    (∀ u r, getUserById db uid = Except.ok u → getRewardById db rid = some r →
      u.points < r.points_required →
      claimReward o db uid rid = (db, Except.error ClaimError.insufficientPoints)) ∧
    (∀ u r, getUserById db uid = Except.ok u → getRewardById db rid = some r →
      ¬ u.points < r.points_required → r.stock ≤ 0 →
      claimReward o db uid rid = (db, Except.error ClaimError.outOfStock)) := by
  refine ⟨?_, ?_, ?_, ?_⟩
  · intro h
    unfold claimReward claimRead
    rw [h]
  · intro u hu hr
    unfold claimReward claimRead
    rw [hu, hr]
  · intro u r hu hr hlt
    unfold claimReward claimRead
    rw [hu, hr]
    simp [hlt]
  · intro u r hu hr hge hstock
    unfold claimReward claimRead
    rw [hu, hr]
    simp [hge, hstock]

/-- C6 amended witness: the four failure modes at concrete states. -/
theorem claimReward_check_order_witness :
    claimReward noFail dbNoUser 2 7 =
      (dbNoUser, Except.error ClaimError.userFetchError) ∧
    claimReward noFail dbNoReward 1 9 =
      (dbNoReward, Except.error ClaimError.userOrRewardNotFound) ∧
    claimReward noFail dbPoor 3 7 =
      (dbPoor, Except.error ClaimError.insufficientPoints) ∧
    claimReward noFail dbSoldOut 1 9 =
      (dbSoldOut, Except.error ClaimError.outOfStock) :=
  ⟨(claimReward_check_order noFail dbNoUser 2 7).1 rfl,
   (claimReward_check_order noFail dbNoReward 1 9).2.1 alice rfl rfl,
   (claimReward_check_order noFail dbPoor 3 7).2.2.1 poorUser headset rfl rfl (by decide),
   (claimReward_check_order noFail dbSoldOut 1 9).2.2.2 alice soldOutMug rfl rfl
     (by decide) (by decide)⟩

end Rewards

namespace Auth

/-- Removing the password key really removes it: a lookup of the key on
the stripped row finds nothing. -/
theorem getField_omitField (r : Row) (k : String) :
    getField (omitField r k) k = none := by
  induction r with
  | nil => rfl
  | cons a t ih =>
      unfold omitField at ih ⊢
      rw [List.filter_cons]
      by_cases h : (a.1 == k) = true
      · rw [if_neg (by simp [bne, h])]
        exact ih
      · rw [if_pos (by simp [bne, h])]
        unfold getField at ih ⊢
        simp only [List.find?_cons]
        rw [Bool.not_eq_true] at h
        rw [h]
        exact ih

/-- C7: a registration that succeeds creates exactly one new user row
whose points balance is the fixed welcome bonus 100 with role `user`, and
appends exactly one `registration` activity entry whose points delta is
that same starting balance. -/
theorem register_welcome_bonus (hash : String → String) (db db' : AuthDB)
    (username email password : String) (resp : AuthSuccess)
    (h : register hash false db username email password = (db', Except.ok resp)) :
    ∃ row, db'.users = db.users ++ [row] ∧
      getField row "points" = some (Value.int 100) ∧
      getField row "role" = some (Value.str "user") ∧
      db'.activity = db.activity ++
        [⟨Value.int db.nextId, none, none, "registration", "User registered", 100⟩] := by
  unfold register at h
  split at h
  · simp at h
  · split at h
    · simp at h
    · split at h
      · simp at h
      · injection h with hdb hok
        subst hdb
        exact ⟨_, rfl, rfl, rfl, rfl⟩

/-- C7 witness: registering alice against the empty store grants 100
points and records the registration entry. -/
theorem register_welcome_bonus_witness :
    ∃ row, (register tagHash false authDb0 "alice" "alice@example.com" "secret1").1.users
        = authDb0.users ++ [row] ∧
      getField row "points" = some (Value.int 100) ∧
      getField row "role" = some (Value.str "user") ∧
      (register tagHash false authDb0 "alice" "alice@example.com" "secret1").1.activity
        = authDb0.activity ++
          [⟨Value.int authDb0.nextId, none, none, "registration", "User registered", 100⟩] :=
  register_welcome_bonus tagHash authDb0 _ "alice" "alice@example.com" "secret1" _ rfl

/-- C8: an unknown email and a known email with a wrong password produce
the same response: the state unchanged and the identical error value
`401 Invalid email or password`; a caller cannot tell the two apart. -/
theorem login_error_no_enumeration (verify : String → String → Bool)
    (lf : Bool) (db : AuthDB) :
    (∀ email password, email.isEmpty = false → password.isEmpty = false →
      getUserByEmail db (trimString (lowerString email)) = none →
      login verify lf db email password =
        (db, Except.error (401, "Invalid email or password"))) ∧
    (∀ email password user, email.isEmpty = false → password.isEmpty = false →
      getUserByEmail db (trimString (lowerString email)) = some user →
      verify password (passwordHashOf user) = false →
      login verify lf db email password =
        (db, Except.error (401, "Invalid email or password"))) := by
  constructor
  · intro email password h1 h2 h3
    simp [login, h1, h2, h3]
  · intro email password user h1 h2 h3 h4
    simp [login, h1, h2, h3, h4]

/-- C8 witness: against the store holding alice, a login with a missing
identity and a login with the right identity but wrong secret return the
very same error. -/
theorem login_error_no_enumeration_witness :
    login tagVerify false authDb1 "missing@example.com" "secret1" =
      (authDb1, Except.error (401, "Invalid email or password")) ∧
    login tagVerify false authDb1 "alice@example.com" "wrong1" =
      (authDb1, Except.error (401, "Invalid email or password")) :=
  ⟨(login_error_no_enumeration tagVerify false authDb1).1
      "missing@example.com" "secret1" rfl rfl (by decide),
   (login_error_no_enumeration tagVerify false authDb1).2
      "alice@example.com" "wrong1" aliceRow rfl rfl (by decide) (by decide)⟩

/-- C10: every success response of register, login, getProfile and
updateProfile carries a user object from which the password field has
been stripped: looking up `password` on it finds nothing. -/
theorem responses_without_password :
    (∀ (hash : String → String) (lf : Bool) (db db' : AuthDB)
        (un em pw : String) (resp : AuthSuccess),
      register hash lf db un em pw = (db', Except.ok resp) →
      getField resp.user "password" = none) ∧
    (∀ (verify : String → String → Bool) (lf : Bool) (db db' : AuthDB)
        (em pw : String) (resp : AuthSuccess),
      login verify lf db em pw = (db', Except.ok resp) →
      getField resp.user "password" = none) ∧
    (∀ (db : AuthDB) (uid : Value) (user : Row),
      getProfile db uid = Except.ok user →
      getField user "password" = none) ∧
    (∀ (lf : Bool) (db db' : AuthDB) (uid : Value) (nm av : Option String) (user : Row),
      updateProfile lf db uid nm av = (db', Except.ok user) →
      getField user "password" = none) := by
  refine ⟨?_, ?_, ?_, ?_⟩
  · intro hash lf db db' un em pw resp h
    unfold register at h
    split at h
    · simp at h
    · split at h
      · simp at h
      · split at h
        · simp at h
        · injection h with hdb hok
          injection hok with hok
          subst hok
          exact getField_omitField _ _
  · intro verify lf db db' em pw resp h
    unfold login at h
    split at h
    · simp at h
    · split at h
      · simp at h
      · split at h
        · simp at h
        · injection h with hdb hok
          injection hok with hok
          subst hok
          exact getField_omitField _ _
  · intro db uid user h
    unfold getProfile at h
    split at h
    · simp at h
    · injection h with hok
      subst hok
      exact getField_omitField _ _
  · intro lf db db' uid nm av user h
    unfold updateProfile at h
    cases hu2 : updateUser db uid (profileUpdates nm av) with
    | mk db1 res =>
        rw [hu2] at h
        cases res with
        | ok updated =>
            have h : (logActivity lf db1 uid "profile_update" "Profile updated" 0 none none,
                Except.ok (omitField updated "password")) = (db', Except.ok user) := h
            injection h with hdb hok
            injection hok with hok
            subst hok
            exact getField_omitField _ _
        | error e =>
            have h : (db1, (Except.error e : Except ApiError Row)) = (db', Except.ok user) := h
            simp at h

/-- C10 witness: the four endpoints, run concretely, return user objects
with no password field. -/
theorem responses_without_password_witness :
    getField [("id", Value.int 5), ("name", Value.str "alice"),
      ("email", Value.str "alice@example.com"), ("role", Value.str "user"),
      ("points", Value.int 100)] "password" = none ∧
    getField (omitField aliceRow "password") "password" = none ∧
    getField (omitField aliceRow "password") "password" = none ∧
    getField (omitField (setField aliceRow "name" (Value.str "Alice")) "password")
      "password" = none :=
  ⟨responses_without_password.1 tagHash false authDb0 _ "alice" "alice@example.com"
      "secret1" _ rfl,
   responses_without_password.2.1 tagVerify false authDb1
      ⟨[aliceRow], [⟨Value.int 5, none, none, "login", "User logged in", 0⟩], 6⟩
      "alice@example.com" "secret1"
      ⟨200, ⟨Value.int 5, some (Value.str "alice@example.com"),
             some (Value.str "user"), some (Value.str "alice")⟩,
       omitField aliceRow "password"⟩ rfl,
   responses_without_password.2.2.1 authDb1 (Value.int 5) _ rfl,
   responses_without_password.2.2.2 false authDb1
      ⟨[setField aliceRow "name" (Value.str "Alice")],
       [⟨Value.int 5, none, none, "profile_update", "Profile updated", 0⟩], 6⟩
      (Value.int 5) (some "Alice") none _ rfl⟩

end Auth

/-- C9: a failing activity-log append never changes what the caller sees:
for any state and inputs, the result of `claimReward`, `register` and
`login` with a failing log insert equals the result with a working one;
the swallowed failure only affects the activity table. -/
theorem log_failure_not_propagated :
    (∀ (i u s : Bool) (db : Rewards.DB) (uid rid : Nat),
      (Rewards.claimReward ⟨i, u, s, true⟩ db uid rid).2 =
        (Rewards.claimReward ⟨i, u, s, false⟩ db uid rid).2) ∧
    (∀ (hash : String → String) (db : Auth.AuthDB) (un em pw : String),
      (Auth.register hash true db un em pw).2 =
        (Auth.register hash false db un em pw).2) ∧
    (∀ (verify : String → String → Bool) (db : Auth.AuthDB) (em pw : String),
      (Auth.login verify true db em pw).2 =
        (Auth.login verify false db em pw).2) := by
  refine ⟨?_, ?_, ?_⟩
  · intro i u s db uid rid
    unfold Rewards.claimReward
    cases hread : Rewards.claimRead db uid rid with
    | error e => rfl
    | ok snap =>
        obtain ⟨uu, rr⟩ := snap
        show (Rewards.claimCommit ⟨i, u, s, true⟩ db ⟨uu, rr⟩).2 =
          (Rewards.claimCommit ⟨i, u, s, false⟩ db ⟨uu, rr⟩).2
        cases i <;> cases u <;> cases s <;>
          simp [Rewards.claimCommit, Rewards.logActivity, Rewards.appendActivity]
  · intro hash db un em pw
    by_cases h1 : (un.isEmpty || em.isEmpty || pw.isEmpty) = true
    · simp [Auth.register, h1]
    · by_cases h2 : pw.length < 6
      · simp [Auth.register, h1, h2]
      · cases hex : Auth.getUserByEmail db em with
        | some u2 => simp [Auth.register, h1, h2, hex]
        | none => simp [Auth.register, h1, h2, hex, Auth.logActivity]
  · intro verify db em pw
    by_cases h1 : (em.isEmpty || pw.isEmpty) = true
    · simp [Auth.login, h1]
    · cases hex : Auth.getUserByEmail db (Auth.trimString (Auth.lowerString em)) with
      | none => simp [Auth.login, h1, hex]
      | some user =>
          by_cases hv : verify pw (Auth.passwordHashOf user) = true
          · simp [Auth.login, h1, hex, hv, Auth.logActivity]
          · simp [Auth.login, h1, hex, hv]
